import Mathlib

set_option autoImplicit false

/-!
Shallow embedding of the intellacc MCP server (src/mcp-server.py): the tool
registry (handle_list_tools) and the tool dispatcher (handle_call_tool).
External effects (subprocess.run, file reads) are modelled by a `World`
oracle; each dispatch returns the list of TextContent results together with
the trace of external calls actually made.
-/

namespace Mcp

/-- A Python value as it appears in the argument mapping of a tool call:
the relevant cases are None, strings and integers. -/
inductive Value where
  | none : Value
  | str : String → Value
  | int : Int → Value
deriving DecidableEq

/-- Python str() on the values above (used by f-string interpolation and
by the explicit str(lines) conversion). -/
def pyStr : Value → String
  | Value.none => "None"
  | Value.str s => s
  | Value.int n => toString n

/-- The argument mapping of an invocation, as an association list
(a Python dict with string keys). -/
abbrev Args : Type := List (String × Value)

/-- Python dict.get(k): the value at k, or None when the key is absent. -/
def Args.get (a : Args) (k : String) : Value :=
  match List.lookup k a with
  | Option.some v => v
  | Option.none => Value.none

/-- Python dict.get(k, d): the value at k, or the default d when absent. -/
def Args.getD (a : Args) (k : String) (d : Value) : Value :=
  match List.lookup k a with
  | Option.some v => v
  | Option.none => d

/-- The outcome of subprocess.run with capture_output=True, text=True. -/
structure CompletedProcess where
  returncode : Int
  stdout : String
  stderr : String
deriving DecidableEq

/-- types.TextContent(type="text", text=...). -/
structure TextContent where
  type : String
  text : String
deriving DecidableEq

/-- The operating environment: what an external command run returns (or the
description of the exception it raises), and what reading a file returns
(or the description of the exception the read raises). -/
structure World where
  runCmd : List String → Except String CompletedProcess
  readFile : String → Except String String

/-- An externally visible action performed during a dispatch. -/
inductive Effect where
  | ranCmd : List String → Effect
  | readFile : String → Effect
deriving DecidableEq

/-- subprocess.run requires every element of the argument list to be a
string; a None or int element raises TypeError before any process is
spawned. -/
def cmdArg : Value → Except String String
  | Value.str s => Except.ok s
  | Value.none => Except.error "expected str, bytes or os.PathLike object, not NoneType"
  | Value.int _ => Except.error "expected str, bytes or os.PathLike object, not int"

/-- Run subprocess.run(cmd, capture_output=True, text=True) against the
world: check the argument list, then consult the world and record the
external call. A TypeError from the argument check spawns nothing. -/
def subprocessRun (w : World) (cmd : List Value) :
    Except String CompletedProcess × List Effect :=
  match cmd.mapM cmdArg with
  | Except.error e => (Except.error e, [])
  | Except.ok argv => (w.runCmd argv, [Effect.ranCmd argv])

/-- The command list built by the query_db handler (lines 84-88 of the
source): query := arguments.get("query"), database :=
arguments.get("database", "intellaccdb"). -/
def queryDbCmd (arguments : Args) : List Value :=
  [Value.str "docker", Value.str "exec", Value.str "intellacc_db",
   Value.str "psql", Value.str "-U", Value.str "intellacc_user",
   Value.str "-d", arguments.getD "database" (Value.str "intellaccdb"),
   Value.str "-c", arguments.get "query"]

/-- The query_db branch of handle_call_tool. -/
def handleQueryDb (w : World) (arguments : Args) :
    List TextContent × List Effect :=
  match subprocessRun w (queryDbCmd arguments) with
  | (Except.error e, eff) =>
      ([⟨"text", "Error executing query: " ++ e⟩], eff)
  | (Except.ok result, eff) =>
      if result.returncode = 0 then
        ([⟨"text", "Query executed successfully:\n\n" ++ result.stdout⟩], eff)
      else
        ([⟨"text", "Query failed:\n" ++ result.stderr⟩], eff)

/-- The fixed path of the project-context document read by
get_project_status. -/
def claudeMdPath : String := "/home/jayjag/Nextcloud/intellacc.com/CLAUDE.md"

/-- The docker ps command run by get_project_status. -/
def dockerPsCmd : List Value :=
  [Value.str "docker", Value.str "ps", Value.str "--format",
   Value.str "table \x7b\x7b.Names\x7d\x7d\t\x7b\x7b.Status\x7d\x7d\t\x7b\x7b.Ports\x7d\x7d"]

/-- The status report f-string of get_project_status: only the docker ps
stdout is interpolated; every other block is a literal. -/
def statusReport (dockerStdout : String) : String :=
  "\n# Intellacc Project Status\n\n## Docker Containers\n" ++ dockerStdout ++
  "\n\n## Recent Project Context\nKey features implemented:\n" ++
  "- LMSR automated market making system\n" ++
  "- Kelly optimal betting suggestions with belief probability slider\n" ++
  "- Real-time leaderboards showing actual RP balances  \n" ++
  "- Database cleanup and optimization\n" ++
  "- Enhanced prediction UI with working sliders\n\n" ++
  "## Current Working Directory\n/home/jayjag/Nextcloud/intellacc.com\n\n" ++
  "## Key Architecture\n- Frontend: VanJS (port 5173)\n" ++
  "- Backend: Express.js (port 3000) \n" ++
  "- Database: PostgreSQL (port 5432)\n" ++
  "- Prediction Engine: Rust (port 3001)\n"

/-- The get_project_status branch of handle_call_tool: read the
project-context document, run docker ps, compose the report; any raise in
the try block becomes the error text. The document content is bound but
never interpolated into the report. -/
def handleGetProjectStatus (w : World) : List TextContent × List Effect :=
  match w.readFile claudeMdPath with
  | Except.error e =>
      ([⟨"text", "Error getting project status: " ++ e⟩],
       [Effect.readFile claudeMdPath])
  | Except.ok _claudeContent =>
      match subprocessRun w dockerPsCmd with
      | (Except.error e, eff) =>
          ([⟨"text", "Error getting project status: " ++ e⟩],
           Effect.readFile claudeMdPath :: eff)
      | (Except.ok dockerStatus, eff) =>
          ([⟨"text", statusReport dockerStatus.stdout⟩],
           Effect.readFile claudeMdPath :: eff)

/-- The fixed service-to-container table of analyze_logs. -/
def containerMap : List (String × String) :=
  [("backend", "intellacc_backend"),
   ("frontend", "intellacc_frontend"),
   ("prediction-engine", "intellacc_prediction_engine"),
   ("db", "intellacc_db")]

/-- container_map.get(service): only a string key can hit the table; any
other value (None in particular) yields None. -/
def containerFor : Value → Option String
  | Value.str s => List.lookup s containerMap
  | _ => Option.none

/-- The health classification of the analyze_logs report, a function of
the exit status alone (line 191 of the source). -/
def healthStatus (returncode : Int) : String :=
  if returncode = 0 then "Healthy" else "Issues detected"

/-- The analysis report f-string of analyze_logs. -/
def analysisText (service lines : Value) (container : String)
    (result : CompletedProcess) : String :=
  "\n# Log Analysis for " ++ pyStr service ++ "\n\n## Recent Logs (" ++
  pyStr lines ++ " lines)\n" ++ result.stdout ++ "\n\n## Error Output\n" ++
  (if result.stderr = "" then "No errors" else result.stderr) ++
  "\n\n## Analysis\n- Container: " ++ container ++ "\n- Lines analyzed: " ++
  pyStr lines ++ "\n- Status: " ++ healthStatus result.returncode ++ "\n"

/-- The docker logs command list of analyze_logs, with str(lines)
interpolated as the tail count. -/
def analyzeLogsCmd (lines : Value) (container : String) : List Value :=
  [Value.str "docker", Value.str "logs", Value.str "--tail",
   Value.str (pyStr lines), Value.str container]

/-- The analyze_logs branch of handle_call_tool. The Python test
`if not container` is falsy for None and for the empty string, so both
fall into the unknown-service branch. -/
def handleAnalyzeLogs (w : World) (arguments : Args) :
    List TextContent × List Effect :=
  let service := arguments.get "service"
  let lines := arguments.getD "lines" (Value.int 50)
  match containerFor service with
  | Option.none =>
      ([⟨"text", "Unknown service: " ++ pyStr service⟩], [])
  | Option.some container =>
      if container = "" then
        ([⟨"text", "Unknown service: " ++ pyStr service⟩], [])
      else
        match subprocessRun w (analyzeLogsCmd lines container) with
        | (Except.error e, eff) =>
            ([⟨"text", "Error analyzing logs: " ++ e⟩], eff)
        | (Except.ok result, eff) =>
            ([⟨"text", analysisText service lines container result⟩], eff)

/-- handle_call_tool: dispatch on the tool name; an unknown name gets the
fixed unknown-tool text and touches nothing external. -/
def handleCallTool (w : World) (name : String) (arguments : Args) :
    List TextContent × List Effect :=
  if name = "query_db" then handleQueryDb w arguments
  else if name = "get_project_status" then handleGetProjectStatus w
  else if name = "analyze_logs" then handleAnalyzeLogs w arguments
  else ([⟨"text", "Unknown tool: " ++ name⟩], [])

/-- One property of an input schema (type, description, optional default,
optional enumeration of allowed values). -/
structure PropSchema where
  type : String
  description : String
  default : Option Value
  enum : Option (List String)
deriving DecidableEq

/-- An input schema: JSON-schema object with properties and an optional
required list. -/
structure InputSchema where
  type : String
  properties : List (String × PropSchema)
  required : Option (List String)
deriving DecidableEq

/-- types.Tool. -/
structure Tool where
  name : String
  description : String
  inputSchema : InputSchema
deriving DecidableEq

/-- The query_db descriptor. -/
def queryDbTool : Tool :=
  ⟨"query_db", "Execute SQL queries on the Intellacc database",
   ⟨"object",
    [("query", ⟨"string", "SQL query to execute", Option.none, Option.none⟩),
     ("database", ⟨"string", "Database name (default: intellaccdb)",
        Option.some (Value.str "intellaccdb"), Option.none⟩)],
    Option.some ["query"]⟩⟩

/-- The get_project_status descriptor. -/
def getProjectStatusTool : Tool :=
  ⟨"get_project_status",
   "Get current project status including todo items and recent changes",
   ⟨"object", [], Option.none⟩⟩

/-- The analyze_logs descriptor. -/
def analyzeLogsTool : Tool :=
  ⟨"analyze_logs", "Analyze application logs for errors or patterns",
   ⟨"object",
    [("service", ⟨"string",
        "Service to analyze (backend, frontend, prediction-engine, db)",
        Option.none,
        Option.some ["backend", "frontend", "prediction-engine", "db"]⟩),
     ("lines", ⟨"integer", "Number of log lines to analyze",
        Option.some (Value.int 50), Option.none⟩)],
    Option.some ["service"]⟩⟩

/-- handle_list_tools: the fixed registry, in source order. -/
def handle_list_tools : List Tool :=
  [queryDbTool, getProjectStatusTool, analyzeLogsTool]

/-- A stub world in which every external action succeeds: commands exit 0
with stdout "rows: 3" and empty stderr, reads return "ctx". -/
def stubWorldOk : World :=
  ⟨fun _ => Except.ok ⟨0, "rows: 3", ""⟩, fun _ => Except.ok "ctx"⟩

/-- A stub world in which every external action raises, with "boom" as the
exception description. -/
def failWorld : World :=
  ⟨fun _ => Except.error "boom", fun _ => Except.error "boom"⟩

/-- A stub world in which every command completes with exit status 1 and
stderr "syntax error", and reads succeed. -/
def stubWorldErr : World :=
  ⟨fun _ => Except.ok ⟨1, "", "syntax error"⟩, fun _ => Except.ok "ctx"⟩

/-- The string form of the docker ps command, as received by the world
once the command list has passed the subprocess argument check. -/
def dockerPsArgv : List String :=
  ["docker", "ps", "--format",
   "table \x7b\x7b.Names\x7d\x7d\t\x7b\x7b.Status\x7d\x7d\t\x7b\x7b.Ports\x7d\x7d"]

end Mcp

namespace Mcp

/-- Helper: every container identifier in the fixed service table is a
nonempty string, so the Python truthiness test cannot misfire on a mapped
service. -/
theorem containerMap_lookup_ne_empty (s c : String)
    (h : List.lookup s containerMap = Option.some c) : c ≠ "" := by
  simp only [containerMap, List.lookup] at h
  repeat' split at h
  all_goals simp_all
  all_goals (subst h; decide)

/-- Helper: the query_db branch always returns a single text content. -/
theorem handleQueryDb_single (w : World) (arguments : Args) :
    ∃ t : TextContent, (handleQueryDb w arguments).1 = [t] ∧ t.type = "text" := by
  unfold handleQueryDb
  repeat' split
  all_goals exact ⟨_, rfl, rfl⟩

/-- Helper: the get_project_status branch always returns a single text
content. -/
theorem handleGetProjectStatus_single (w : World) :
    ∃ t : TextContent, (handleGetProjectStatus w).1 = [t] ∧ t.type = "text" := by
  unfold handleGetProjectStatus
  repeat' split
  all_goals exact ⟨_, rfl, rfl⟩

/-- Helper: the analyze_logs branch always returns a single text content. -/
theorem handleAnalyzeLogs_single (w : World) (arguments : Args) :
    ∃ t : TextContent, (handleAnalyzeLogs w arguments).1 = [t] ∧ t.type = "text" := by
  unfold handleAnalyzeLogs
  dsimp only
  repeat' split
  all_goals exact ⟨_, rfl, rfl⟩

/-- Helper: dispatch always returns a single text content, whatever the
tool name, the arguments and the behavior of the environment. -/
theorem handleCallTool_single (w : World) (name : String) (arguments : Args) :
    ∃ t : TextContent, (handleCallTool w name arguments).1 = [t] ∧ t.type = "text" := by
  unfold handleCallTool
  repeat' split
  · exact handleQueryDb_single w arguments
  · exact handleGetProjectStatus_single w
  · exact handleAnalyzeLogs_single w arguments
  · exact ⟨_, rfl, rfl⟩

/-- Helper: an analyze_logs invocation whose argument mapping has no
service key reads the service as None and lands in the unknown-service
branch with no external call. -/
theorem analyzeLogs_service_absent (w : World) (arguments : Args)
    (h : List.lookup "service" arguments = Option.none) :
    handleCallTool w "analyze_logs" arguments =
      ([⟨"text", "Unknown service: None"⟩], []) := by
  have hname : handleCallTool w "analyze_logs" arguments = handleAnalyzeLogs w arguments := by
    simp [handleCallTool]
  rw [hname]
  unfold handleAnalyzeLogs
  simp only [Args.get, h]
  rfl

/-- C1: for every tool name and every argument mapping, dispatch returns
exactly one textual result, and every internal fault raised while handling
query_db, get_project_status or analyze_logs (a raising subprocess run or
file read) is caught and converted into the corresponding
"Error ...: fault" text. -/
theorem dispatch_returns_one_text_and_converts_faults
    (w : World) (name : String) (arguments : Args) :
    (∃ t : TextContent, (handleCallTool w name arguments).1 = [t] ∧ t.type = "text")
    ∧ (∀ e : String,
        ((subprocessRun w (queryDbCmd arguments)).1 = Except.error e →
          (handleCallTool w "query_db" arguments).1 =
            [⟨"text", "Error executing query: " ++ e⟩])
      ∧ (w.readFile claudeMdPath = Except.error e →
          (handleCallTool w "get_project_status" arguments).1 =
            [⟨"text", "Error getting project status: " ++ e⟩])
      ∧ (∀ d : String, w.readFile claudeMdPath = Except.ok d →
          (subprocessRun w dockerPsCmd).1 = Except.error e →
          (handleCallTool w "get_project_status" arguments).1 =
            [⟨"text", "Error getting project status: " ++ e⟩])
      ∧ (∀ c : String, containerFor (arguments.get "service") = Option.some c →
          c ≠ "" →
          (subprocessRun w (analyzeLogsCmd (arguments.getD "lines" (Value.int 50)) c)).1 =
            Except.error e →
          (handleCallTool w "analyze_logs" arguments).1 =
            [⟨"text", "Error analyzing logs: " ++ e⟩])) := by
  refine ⟨handleCallTool_single w name arguments, fun e => ⟨?_, ?_, ?_, ?_⟩⟩
  · intro h
    have hname : handleCallTool w "query_db" arguments = handleQueryDb w arguments := by
      simp [handleCallTool]
    rw [hname]
    unfold handleQueryDb
    rcases hsp : subprocessRun w (queryDbCmd arguments) with ⟨r, eff⟩
    rw [hsp] at h
    have hr : r = Except.error e := h
    subst hr
    rfl
  · intro h
    have hname : handleCallTool w "get_project_status" arguments = handleGetProjectStatus w := by
      simp [handleCallTool]
    rw [hname]
    unfold handleGetProjectStatus
    rw [h]
  · intro d hd h
    have hname : handleCallTool w "get_project_status" arguments = handleGetProjectStatus w := by
      simp [handleCallTool]
    have hr : w.runCmd dockerPsArgv = Except.error e := h
    have hsp : subprocessRun w dockerPsCmd =
        (Except.error e, [Effect.ranCmd dockerPsArgv]) := by
      have hred : subprocessRun w dockerPsCmd =
          (w.runCmd dockerPsArgv, [Effect.ranCmd dockerPsArgv]) := rfl
      rw [hred, hr]
    rw [hname]
    unfold handleGetProjectStatus
    rw [hd, hsp]
  · intro c hc hcne h
    have hname : handleCallTool w "analyze_logs" arguments = handleAnalyzeLogs w arguments := by
      simp [handleCallTool]
    have hr : w.runCmd ["docker", "logs", "--tail",
        pyStr (arguments.getD "lines" (Value.int 50)), c] = Except.error e := h
    have hsp : subprocessRun w (analyzeLogsCmd (arguments.getD "lines" (Value.int 50)) c) =
        (Except.error e, [Effect.ranCmd ["docker", "logs", "--tail",
          pyStr (arguments.getD "lines" (Value.int 50)), c]]) := by
      have hred : subprocessRun w (analyzeLogsCmd (arguments.getD "lines" (Value.int 50)) c) =
          (w.runCmd ["docker", "logs", "--tail",
            pyStr (arguments.getD "lines" (Value.int 50)), c],
           [Effect.ranCmd ["docker", "logs", "--tail",
             pyStr (arguments.getD "lines" (Value.int 50)), c]]) := rfl
      rw [hred, hr]
    rw [hname]
    unfold handleAnalyzeLogs
    dsimp only
    rw [hc]
    dsimp only
    rw [if_neg hcne, hsp]

/-- Witness for C1: in a world where every external action raises with
description "boom", each handler converts the fault into its error text,
and the query_db result is a single text content. -/
theorem dispatch_returns_one_text_and_converts_faults_witness :
    (∃ t : TextContent,
      (handleCallTool failWorld "query_db" [("query", Value.str "SELECT 1")]).1 = [t]
      ∧ t.type = "text")
    ∧ (handleCallTool failWorld "query_db" [("query", Value.str "SELECT 1")]).1 =
        [⟨"text", "Error executing query: boom"⟩]
    ∧ (handleCallTool failWorld "get_project_status" []).1 =
        [⟨"text", "Error getting project status: boom"⟩]
    ∧ (handleCallTool failWorld "analyze_logs" [("service", Value.str "backend")]).1 =
        [⟨"text", "Error analyzing logs: boom"⟩] := by
  refine ⟨(dispatch_returns_one_text_and_converts_faults failWorld "query_db"
    [("query", Value.str "SELECT 1")]).1, ?_, ?_, ?_⟩
  · exact ((dispatch_returns_one_text_and_converts_faults failWorld "query_db"
      [("query", Value.str "SELECT 1")]).2 "boom").1 rfl
  · exact ((dispatch_returns_one_text_and_converts_faults failWorld "get_project_status"
      []).2 "boom").2.1 rfl
  · exact ((dispatch_returns_one_text_and_converts_faults failWorld "analyze_logs"
      [("service", Value.str "backend")]).2 "boom").2.2.2
      "intellacc_backend" rfl (by decide) rfl

/-- C2: for every tool name outside the three known ones, dispatch returns
the fixed unknown-tool text with the offending name interpolated, and
performs no external call and records no effect. -/
theorem unknown_tool_fixed_message_no_effects
    (w : World) (name : String) (arguments : Args)
    (h1 : name ≠ "query_db") (h2 : name ≠ "get_project_status")
    (h3 : name ≠ "analyze_logs") :
    handleCallTool w name arguments = ([⟨"text", "Unknown tool: " ++ name⟩], []) := by
  simp [handleCallTool, h1, h2, h3]

/-- Witness for C2 at the unknown name "frobnicate". -/
theorem unknown_tool_fixed_message_no_effects_witness :
    handleCallTool stubWorldOk "frobnicate" [] =
      ([⟨"text", "Unknown tool: frobnicate"⟩], []) :=
  unknown_tool_fixed_message_no_effects stubWorldOk "frobnicate" []
    (by decide) (by decide) (by decide)

/-- C3: for every analyze_logs invocation whose service argument is
outside the fixed table (in particular any non-string value), the result
is exactly the unknown-service text with str(service) interpolated, and
no external process is invoked. -/
theorem unknown_service_exact_message_no_processes
    (w : World) (arguments : Args)
    (h : ∀ s : String, arguments.get "service" = Value.str s →
        List.lookup s containerMap = Option.none) :
    handleCallTool w "analyze_logs" arguments =
      ([⟨"text", "Unknown service: " ++ pyStr (arguments.get "service")⟩], []) := by
  have hname : handleCallTool w "analyze_logs" arguments = handleAnalyzeLogs w arguments := by
    simp [handleCallTool]
  rw [hname]
  unfold handleAnalyzeLogs
  cases hv : arguments.get "service" with
  | none => rfl
  | str s =>
      have := h s hv
      simp [containerFor, this]
  | int n => rfl

/-- Witness for C3 at the unmapped service "redis". -/
theorem unknown_service_exact_message_no_processes_witness :
    handleCallTool stubWorldOk "analyze_logs" [("service", Value.str "redis")] =
      ([⟨"text", "Unknown service: redis"⟩], []) := by
  have h := unknown_service_exact_message_no_processes stubWorldOk
    [("service", Value.str "redis")] ?_
  · exact h
  · intro s hs
    simp only [Args.get, List.lookup] at hs
    cases hs
    decide

/-- C4: for a query_db invocation whose external command runs to
completion, a zero exit status yields the success text followed by stdout,
and a nonzero exit status yields the failure text followed by stderr. -/
theorem query_db_success_and_failure_texts
    (w : World) (arguments : Args) (res : CompletedProcess)
    (h : (subprocessRun w (queryDbCmd arguments)).1 = Except.ok res) :
    (res.returncode = 0 →
      (handleCallTool w "query_db" arguments).1 =
        [⟨"text", "Query executed successfully:\n\n" ++ res.stdout⟩])
    ∧ (res.returncode ≠ 0 →
      (handleCallTool w "query_db" arguments).1 =
        [⟨"text", "Query failed:\n" ++ res.stderr⟩]) := by
  have hname : handleCallTool w "query_db" arguments = handleQueryDb w arguments := by
    simp [handleCallTool]
  rw [hname]
  unfold handleQueryDb
  rcases hsp : subprocessRun w (queryDbCmd arguments) with ⟨r, eff⟩
  rw [hsp] at h
  have hr : r = Except.ok res := h
  subst hr
  constructor
  · intro h0
    simp [h0]
  · intro h0
    simp [h0]

/-- Witness for C4: a stub exiting 0 with stdout "rows: 3" and a stub
exiting 1 with stderr "syntax error". -/
theorem query_db_success_and_failure_texts_witness :
    ((handleCallTool stubWorldOk "query_db" [("query", Value.str "SELECT 1")]).1 =
      [⟨"text", "Query executed successfully:\n\nrows: 3"⟩])
    ∧ ((handleCallTool stubWorldErr "query_db" [("query", Value.str "SELECT 1")]).1 =
      [⟨"text", "Query failed:\nsyntax error"⟩]) := by
  refine ⟨?_, ?_⟩
  · exact (query_db_success_and_failure_texts stubWorldOk
      [("query", Value.str "SELECT 1")] ⟨0, "rows: 3", ""⟩ rfl).1 rfl
  · exact (query_db_success_and_failure_texts stubWorldErr
      [("query", Value.str "SELECT 1")] ⟨1, "", "syntax error"⟩ rfl).2 (by decide)

/-- C5: for an analyze_logs invocation whose service is in the fixed
table, the only external call is docker logs --tail str(lines) on the
mapped container, and the composed report is exactly the template
containing stdout, stderr or the "No errors" placeholder, and a status
line that is "Healthy" precisely when the exit status is zero (the status
is computed from the exit status alone, never from the log content). -/
theorem analyze_logs_report_composition
    (w : World) (arguments : Args) (s c : String) (res : CompletedProcess)
    (hs : arguments.get "service" = Value.str s)
    (hc : List.lookup s containerMap = Option.some c)
    (hrun : (subprocessRun w
        (analyzeLogsCmd (arguments.getD "lines" (Value.int 50)) c)).1 =
        Except.ok res) :
    (handleCallTool w "analyze_logs" arguments).2 =
      [Effect.ranCmd ["docker", "logs", "--tail",
        pyStr (arguments.getD "lines" (Value.int 50)), c]]
    ∧ (handleCallTool w "analyze_logs" arguments).1 =
      [⟨"text",
        "\n# Log Analysis for " ++ s ++ "\n\n## Recent Logs (" ++
        pyStr (arguments.getD "lines" (Value.int 50)) ++ " lines)\n" ++
        res.stdout ++ "\n\n## Error Output\n" ++
        (if res.stderr = "" then "No errors" else res.stderr) ++
        "\n\n## Analysis\n- Container: " ++ c ++ "\n- Lines analyzed: " ++
        pyStr (arguments.getD "lines" (Value.int 50)) ++ "\n- Status: " ++
        (if res.returncode = 0 then "Healthy" else "Issues detected") ++ "\n"⟩]
    ∧ ((if res.returncode = 0 then "Healthy" else ("Issues detected" : String)) =
        "Healthy" ↔ res.returncode = 0) := by
  have hcne : c ≠ "" := containerMap_lookup_ne_empty s c hc
  have hname : handleCallTool w "analyze_logs" arguments = handleAnalyzeLogs w arguments := by
    simp [handleCallTool]
  have hrun' : w.runCmd ["docker", "logs", "--tail",
      pyStr (arguments.getD "lines" (Value.int 50)), c] = Except.ok res := hrun
  have hsp : subprocessRun w (analyzeLogsCmd (arguments.getD "lines" (Value.int 50)) c) =
      (Except.ok res, [Effect.ranCmd ["docker", "logs", "--tail",
        pyStr (arguments.getD "lines" (Value.int 50)), c]]) := by
    have hred : subprocessRun w (analyzeLogsCmd (arguments.getD "lines" (Value.int 50)) c) =
        (w.runCmd ["docker", "logs", "--tail", pyStr (arguments.getD "lines" (Value.int 50)), c],
         [Effect.ranCmd ["docker", "logs", "--tail",
           pyStr (arguments.getD "lines" (Value.int 50)), c]]) := rfl
    rw [hred, hrun']
  rw [hname]
  unfold handleAnalyzeLogs
  dsimp only
  rw [hs]
  simp only [containerFor]
  rw [hc]
  dsimp only
  rw [if_neg hcne, hsp]
  refine ⟨rfl, ?_, ?_⟩
  · simp [analysisText, pyStr, healthStatus]
  · constructor
    · intro hH
      by_contra hrc
      rw [if_neg hrc] at hH
      exact absurd hH (by decide)
    · intro hrc
      rw [if_pos hrc]

/-- Witness for C5: service "backend" with lines 10 runs docker logs
--tail 10 on intellacc_backend; with exit 0, stdout "rows: 3" and empty
stderr the report shows the placeholder and the Healthy status. -/
theorem analyze_logs_report_composition_witness :
    ((handleCallTool stubWorldOk "analyze_logs"
        [("service", Value.str "backend"), ("lines", Value.int 10)]).2 =
      [Effect.ranCmd ["docker", "logs", "--tail", "10", "intellacc_backend"]])
    ∧ ((handleCallTool stubWorldOk "analyze_logs"
        [("service", Value.str "backend"), ("lines", Value.int 10)]).1 =
      [⟨"text",
        "\n# Log Analysis for backend\n\n## Recent Logs (10 lines)\nrows: 3\n\n" ++
        "## Error Output\nNo errors\n\n## Analysis\n- Container: intellacc_backend\n" ++
        "- Lines analyzed: 10\n- Status: Healthy\n"⟩]) := by
  have h := analyze_logs_report_composition stubWorldOk
    [("service", Value.str "backend"), ("lines", Value.int 10)]
    "backend" "intellacc_backend" ⟨0, "rows: 3", ""⟩ rfl rfl rfl
  refine ⟨h.1, ?_⟩
  have h2 := h.2.1
  simpa using h2

/-- C6: a known tool with a required argument missing either applies the
documented default (an omitted database becomes "intellaccdb"; omitted
lines become 50) or produces a single descriptive text result, never a
crash: an omitted query yields an error text, an omitted service yields
the unknown-service text. -/
theorem known_tool_missing_argument_default_or_error
    (w : World) (arguments : Args) :
    (List.lookup "database" arguments = Option.none →
      queryDbCmd arguments =
        [Value.str "docker", Value.str "exec", Value.str "intellacc_db",
         Value.str "psql", Value.str "-U", Value.str "intellacc_user",
         Value.str "-d", Value.str "intellaccdb",
         Value.str "-c", arguments.get "query"])
    ∧ (List.lookup "lines" arguments = Option.none →
        ∀ s c : String, arguments.get "service" = Value.str s →
          List.lookup s containerMap = Option.some c →
          (handleCallTool w "analyze_logs" arguments).2 =
            [Effect.ranCmd ["docker", "logs", "--tail", "50", c]])
    ∧ (List.lookup "query" arguments = Option.none →
        ∃ t : TextContent, (handleCallTool w "query_db" arguments).1 = [t]
          ∧ t.type = "text")
    ∧ (List.lookup "service" arguments = Option.none →
        handleCallTool w "analyze_logs" arguments =
          ([⟨"text", "Unknown service: None"⟩], [])) := by
  refine ⟨?_, ?_, ?_, ?_⟩
  · intro h
    simp [queryDbCmd, Args.getD, h]
  · intro h s c hs hc
    have hcne : c ≠ "" := containerMap_lookup_ne_empty s c hc
    have hl : arguments.getD "lines" (Value.int 50) = Value.int 50 := by
      simp [Args.getD, h]
    have hname : handleCallTool w "analyze_logs" arguments = handleAnalyzeLogs w arguments := by
      simp [handleCallTool]
    rw [hname]
    unfold handleAnalyzeLogs
    dsimp only
    rw [hs]
    simp only [containerFor]
    rw [hc]
    dsimp only
    rw [if_neg hcne, hl]
    have hsp : subprocessRun w (analyzeLogsCmd (Value.int 50) c) =
        (w.runCmd ["docker", "logs", "--tail", "50", c],
         [Effect.ranCmd ["docker", "logs", "--tail", "50", c]]) := rfl
    rw [hsp]
    split
    · rename_i e eff heq
      injection heq with h1 h2
      exact h2.symm
    · rename_i result eff heq
      injection heq with h1 h2
      exact h2.symm
  · intro _
    have hname : handleCallTool w "query_db" arguments = handleQueryDb w arguments := by
      simp [handleCallTool]
    rw [hname]
    exact handleQueryDb_single w arguments
  · exact analyzeLogs_service_absent w arguments

/-- Witness for C6: the database default at a mapping holding only the
query; the lines default at a mapping holding only the service; a single
text result when the query is missing; the unknown-service text when the
service is missing. -/
theorem known_tool_missing_argument_default_or_error_witness :
    (queryDbCmd [("query", Value.str "SELECT 1")] =
      [Value.str "docker", Value.str "exec", Value.str "intellacc_db",
       Value.str "psql", Value.str "-U", Value.str "intellacc_user",
       Value.str "-d", Value.str "intellaccdb",
       Value.str "-c", Value.str "SELECT 1"])
    ∧ ((handleCallTool stubWorldOk "analyze_logs" [("service", Value.str "backend")]).2 =
        [Effect.ranCmd ["docker", "logs", "--tail", "50", "intellacc_backend"]])
    ∧ (∃ t : TextContent,
        (handleCallTool stubWorldOk "query_db" []).1 = [t] ∧ t.type = "text")
    ∧ (handleCallTool stubWorldOk "analyze_logs" [] =
        ([⟨"text", "Unknown service: None"⟩], [])) := by
  refine ⟨?_, ?_, ?_, ?_⟩
  · exact (known_tool_missing_argument_default_or_error stubWorldOk
      [("query", Value.str "SELECT 1")]).1 rfl
  · exact (known_tool_missing_argument_default_or_error stubWorldOk
      [("service", Value.str "backend")]).2.1 rfl "backend" "intellacc_backend" rfl rfl
  · exact (known_tool_missing_argument_default_or_error stubWorldOk []).2.2.1 rfl
  · exact (known_tool_missing_argument_default_or_error stubWorldOk []).2.2.2 rfl

/-- C7: when the query argument is absent, the command list handed to the
external runner carries the empty None value in the query position, with
no validation before the invocation (the database slot still gets its
default or supplied value). -/
theorem missing_query_passes_none_to_command (arguments : Args)
    (h : List.lookup "query" arguments = Option.none) :
    queryDbCmd arguments =
      [Value.str "docker", Value.str "exec", Value.str "intellacc_db",
       Value.str "psql", Value.str "-U", Value.str "intellacc_user",
       Value.str "-d", arguments.getD "database" (Value.str "intellaccdb"),
       Value.str "-c", Value.none] := by
  simp [queryDbCmd, Args.get, h]

/-- Witness for C7 at the empty argument mapping. -/
theorem missing_query_passes_none_to_command_witness :
    queryDbCmd [] =
      [Value.str "docker", Value.str "exec", Value.str "intellacc_db",
       Value.str "psql", Value.str "-U", Value.str "intellacc_user",
       Value.str "-d", Value.str "intellaccdb", Value.str "-c", Value.none] :=
  missing_query_passes_none_to_command [] rfl

/-- C8: when the project-context document read succeeds, the composed
get_project_status result is independent of the document contents: two
worlds with the same command runner whose reads return different texts
produce identical results. -/
theorem project_status_independent_of_document
    (run : List String → Except String CompletedProcess)
    (d d' : String) (arguments : Args) :
    handleCallTool ⟨run, fun _ => Except.ok d⟩ "get_project_status" arguments =
    handleCallTool ⟨run, fun _ => Except.ok d'⟩ "get_project_status" arguments := rfl

/-- Witness for C8 at two concrete document texts over the same runner. -/
theorem project_status_independent_of_document_witness :
    handleCallTool ⟨stubWorldOk.runCmd, fun _ => Except.ok "alpha"⟩
      "get_project_status" [] =
    handleCallTool ⟨stubWorldOk.runCmd, fun _ => Except.ok "beta"⟩
      "get_project_status" [] :=
  project_status_independent_of_document stubWorldOk.runCmd "alpha" "beta" []

/-- C9: the registry is a fixed pure value: it is exactly the three
descriptors query_db, get_project_status and analyze_logs, in this order,
on every call, independently of any dispatch. -/
theorem list_tools_pure_three_descriptors :
    handle_list_tools = [queryDbTool, getProjectStatusTool, analyzeLogsTool]
    ∧ handle_list_tools.length = 3
    ∧ handle_list_tools.map Tool.name =
        ["query_db", "get_project_status", "analyze_logs"] :=
  ⟨rfl, rfl, rfl⟩

/-- C10: an analyze_logs invocation whose argument mapping has no service
key at all reads the service as None, returns exactly the text
"Unknown service: None" and makes no external call. -/
theorem analyze_logs_missing_service_unknown_none
    (w : World) (arguments : Args)
    (h : List.lookup "service" arguments = Option.none) :
    handleCallTool w "analyze_logs" arguments =
      ([⟨"text", "Unknown service: None"⟩], []) :=
  analyzeLogs_service_absent w arguments h

/-- Witness for C10 at the empty argument mapping. -/
theorem analyze_logs_missing_service_unknown_none_witness :
    handleCallTool failWorld "analyze_logs" [] =
      ([⟨"text", "Unknown service: None"⟩], []) :=
  analyze_logs_missing_service_unknown_none failWorld [] rfl

end Mcp
